import Mathlib

/-!
# Verification of the Shiprocket shipment-integration subsystem

Shallow embedding, in Lean 4, of the shipment-lifecycle integration of an
e-commerce storefront: the carrier status lookup table, the tracking- and
checkout-webhook handlers, the token-cached carrier API client, the
create-shipment admin endpoint and the order-creation endpoint.

Each definition is translated from the corresponding TypeScript source
function; JavaScript truthiness (`x || y`) is made explicit where the source
relies on it (empty string / zero / null are falsy).  Wall-clock time is an
explicit parameter; database tables are finite maps or explicit records;
`fetch` results are injected as explicit response values; thrown exceptions
are `Except` errors.
-/

namespace Shiprocket

/-! ## Status mapping (src/lib/store.ts lines 804-852) -/

/-- `SHIPMENT_STATUS_MAP` from src/lib/store.ts: the literal record mapping
Shiprocket numeric status ids to label strings, embedded as an association
list in source order. -/
def SHIPMENT_STATUS_MAP : List (Int × String) :=
  [ (1, "AWB_ASSIGNED")
  , (2, "LABEL_GENERATED")
  , (3, "PICKUP_SCHEDULED")
  , (4, "PICKUP_QUEUED")
  , (5, "MANIFEST_GENERATED")
  , (6, "SHIPPED")
  , (7, "DELIVERED")
  , (8, "CANCELED")
  , (9, "RTO_INITIATED")
  , (10, "RTO_DELIVERED")
  , (12, "LOST")
  , (13, "PICKUP_ERROR")
  , (14, "RTO_ACKNOWLEDGED")
  , (15, "PICKUP_RESCHEDULED")
  , (16, "CANCELLATION_REQUESTED")
  , (17, "OUT_FOR_DELIVERY")
  , (18, "IN_TRANSIT")
  , (19, "OUT_FOR_PICKUP")
  , (20, "PICKUP_EXCEPTION")
  , (21, "UNDELIVERED")
  , (22, "DELAYED")
  , (38, "REACHED_DESTINATION_HUB")
  , (42, "PICKED_UP") ]

/-- Indexing `SHIPMENT_STATUS_MAP[id]` in TypeScript: `some label` when the id
is a key of the record, `none` (JS `undefined`) otherwise. -/
def statusLabel (c : Int) : Option String :=
  SHIPMENT_STATUS_MAP.lookup c

/-- `mapShiprocketStatusToOrderStatus` from src/lib/store.ts lines 833-852:
the `switch` on the numeric status code, with `processing` as the default
arm. -/
def mapShiprocketStatusToOrderStatus (statusCode : Int) : String :=
  if statusCode = 7 then "delivered"
  else if statusCode = 8 ∨ statusCode = 16 then "cancelled"
  else if statusCode = 6 ∨ statusCode = 17 ∨ statusCode = 18 ∨ statusCode = 42 then "shipped"
  else if statusCode = 9 ∨ statusCode = 10 ∨ statusCode = 14 then "returned"
  else "processing"

/-! ## JavaScript truthiness helpers

The TypeScript sources rely on `x || y` and `if (!x)` where `x` may be
`undefined`, `null`, an empty string or the number zero.  These helpers make
that explicit. -/

/-- JS truthiness of an optional string: `undefined`/`null` and `""` are
falsy. -/
def truthyS : Option String → Bool
  | none => false
  | some s => s ≠ ""

/-- JS truthiness of an optional number: `undefined`/`null` and `0` are
falsy. -/
def truthyN : Option Int → Bool
  | none => false
  | some n => n ≠ 0

/-- `a || b` on optional strings, with JS falsiness (`undefined` and `""`). -/
def orFalsy (a b : Option String) : Option String :=
  if truthyS a then a else b

/-- `a || d` where `d` is a plain string default. -/
def orDefault (a : Option String) (d : String) : String :=
  match a with
  | some s => if s ≠ "" then s else d
  | none => d

/-! ## Tracking webhook (src/unnamed/part_008)

`POST /api/shiprocket/webhook` (tracking updates): `processWebhook` parses
the payload, finds the order by Shiprocket order id or AWB, maps the
Shiprocket status, updates the order row, and inserts a timeline entry for
significant statuses.  The database lookup and the update success are
injected as explicit arguments; `now` is the ISO timestamp string produced
by `new Date().toISOString()`. -/

/-- One entry of the payload's `scans` array. -/
structure Scan where
  date : String
  status : String
  activity : String
  location : String
  srStatus : String
  srStatusLabel : String
deriving DecidableEq, Repr

/-- `ShiprocketWebhookPayload` from src/unnamed/part_008. -/
structure TrackPayload where
  awb : String
  courier_name : String
  current_status : String
  current_status_id : Int
  shipment_status : String
  shipment_status_id : Int
  current_timestamp : String
  order_id : String
  sr_order_id : Int
  awb_assigned_date : Option String
  pickup_scheduled_date : Option String
  etd : Option String
  scans : Option (List Scan)
  is_return : Int
  pod_status : Option String
  pod : Option String
deriving DecidableEq, Repr

/-- The JSON object written to `shiprocket_tracking_data` by the webhook. -/
structure TrackingData where
  current_status : String
  current_status_id : Int
  shipment_status : String
  shipment_status_id : Int
  timestamp : String
  etd : Option String
  is_return : Int
  scans : Option (List Scan)
  pod_status : Option String
  pod : Option String
deriving DecidableEq, Repr

/-- The columns of the `orders` row read and written by the tracking
webhook. -/
structure TrackedOrder where
  id : String
  status : String
  shiprocket_status : Option String
  shiprocket_tracking_data : Option TrackingData
  shipped_at : Option String
  delivered_at : Option String
deriving DecidableEq, Repr

/-- The order row after the webhook's `update` succeeds, mirroring the
`updateData` built in src/unnamed/part_008 lines 93-128: `shiprocket_status`
and `shiprocket_tracking_data` are always written; `status` (and the
`shipped_at` / `delivered_at` timestamps) are written only when the mapped
status differs from the stored one. -/
def processWebhookOrder (o : TrackedOrder) (p : TrackPayload) (now : String) :
    TrackedOrder :=
  let newStatus := mapShiprocketStatusToOrderStatus p.shipment_status_id
  let label := (statusLabel p.shipment_status_id).getD p.shipment_status
  let td : TrackingData :=
    ⟨p.current_status, p.current_status_id, p.shipment_status,
     p.shipment_status_id, p.current_timestamp, p.etd, p.is_return, p.scans,
     p.pod_status, p.pod⟩
  if newStatus ≠ o.status then
    { o with
      shiprocket_status := some label
      shiprocket_tracking_data := some td
      status := newStatus
      shipped_at := if newStatus = "shipped" then some now else o.shipped_at
      delivered_at :=
        if newStatus = "delivered" then some now else o.delivered_at }
  else
    { o with
      shiprocket_status := some label
      shiprocket_tracking_data := some td }

/-- `significantStatuses` from src/unnamed/part_008 line 136. -/
def significantStatuses : List Int := [6, 7, 8, 9, 10, 17, 18, 21, 42]

/-- What `processWebhook` did: each constructor is one of its return
paths. -/
inductive WebhookEffect where
  | invalidPayload
  | orderNotFound
  | updateFailed (orderId : String) (attempted : TrackedOrder)
  | updated (order : TrackedOrder) (timelineInserted : Bool)
deriving DecidableEq, Repr

/-- `processWebhook` from src/unnamed/part_008 lines 62-150: parse failure,
missing order and a failed update each `return` (never throw); on success
the order is updated and a timeline entry is inserted when the status id is
significant. -/
def processWebhookRun (parsed : Option TrackPayload)
    (found : Option TrackedOrder) (updateOk : Bool) (now : String) :
    WebhookEffect :=
  match parsed with
  | none => .invalidPayload
  | some p =>
    match found with
    | none => .orderNotFound
    | some o =>
      let o' := processWebhookOrder o p now
      if updateOk then
        .updated o' (p.shipment_status_id ∈ significantStatuses)
      else
        .updateFailed o.id o'

/-- The HTTP response of the tracking webhook's `POST`, together with the
database effect. -/
structure PostOutcome where
  status : Nat
  body : String
  effect : Option WebhookEffect
deriving DecidableEq, Repr

/-- `POST` from src/unnamed/part_008 lines 43-60: awaits `processWebhook`
inside a try/catch; the try branch returns 200 `received`, the catch branch
returns 200 `error logged`.  `threw` injects an exception thrown by
`processWebhook`. -/
def trackingWebhookPOST (threw : Bool) (parsed : Option TrackPayload)
    (found : Option TrackedOrder) (updateOk : Bool) (now : String) :
    PostOutcome :=
  if threw then ⟨200, "error logged", none⟩
  else ⟨200, "received", some (processWebhookRun parsed found updateOk now)⟩

/-! ## Checkout webhook (src/app/api/shiprocket/webhook/route.ts) and
signature verification (src/lib/shiprocket-checkout.ts)

The HMAC-SHA256-base64 primitive is abstracted as a function
`hmac : String → String → String` (secret, payload ↦ digest); the handler's
logic never inspects the digest beyond string equality.  The
`shiprocket_orders` table is a finite map from `shiprocket_order_id` to its
row; `upsert` with `onConflict: shiprocket_order_id` inserts or replaces the
row at the key, `update ... eq` rewrites the row at the key when present. -/

/-- The checkout-webhook payload fields read by the handler, each an
optional string (`undefined` when absent). -/
structure CheckoutPayload where
  event : Option String
  order_id : Option String
  items : Option String
  cart_items : Option String
  phone : Option String
  customer_phone : Option String
  email : Option String
  customer_email : Option String
  payment_method : Option String
  total_amount : Option String
  order_total : Option String
  shipping_address : Option String
  delivery_address : Option String
  awb : Option String
  current_status : Option String
  shipment_status : Option String
  shipment_id : Option String
  transaction_id : Option String
  payment_status : Option String
deriving DecidableEq, Repr

/-- A row of the `shiprocket_orders` table, with the columns the webhook
writes. -/
structure CheckoutRow where
  shiprocket_order_id : String
  items : Option String
  phone : Option String
  email : Option String
  payment_type : String
  total_amount : Option String
  status : Option String
  shipping_address : Option String
  raw_webhook_data : CheckoutPayload
  updated_at : String
deriving DecidableEq, Repr

/-- The `shiprocket_orders` table keyed by `shiprocket_order_id`. -/
def CheckoutStore := String → Option CheckoutRow

/-- `upsert` with conflict target `shiprocket_order_id`: insert or replace
the row at the key. -/
def upsertRow (s : CheckoutStore) (key : String) (row : CheckoutRow) :
    CheckoutStore :=
  fun k => if k = key then some row else s k

/-- `update ... .eq('shiprocket_order_id', key)`: rewrite the row at the
key when one exists, otherwise no row matches. -/
def updateRow (s : CheckoutStore) (key : String)
    (f : CheckoutRow → CheckoutRow) : CheckoutStore :=
  fun k => if k = key then (s k).map f else s k

/-- The row built by `handleOrderCreated` (route.ts lines 75-101), with the
source's `||` fallbacks made explicit. -/
def orderCreatedRow (p : CheckoutPayload) (now : String) : CheckoutRow :=
  { shiprocket_order_id := p.order_id.getD ""
  , items := orFalsy p.items p.cart_items
  , phone := orFalsy p.phone p.customer_phone
  , email := orFalsy p.email p.customer_email
  , payment_type := orDefault p.payment_method "prepaid"
  , total_amount := orFalsy p.total_amount p.order_total
  , status := some "paid"
  , shipping_address := orFalsy p.shipping_address p.delivery_address
  , raw_webhook_data := p
  , updated_at := now }

/-- `handleOrderCreated` from route.ts lines 75-101: upsert into
`shiprocket_orders` keyed by the payload's `order_id`. -/
def handleOrderCreated (p : CheckoutPayload) (now : String)
    (s : CheckoutStore) : CheckoutStore :=
  upsertRow s (p.order_id.getD "") (orderCreatedRow p now)

/-- `handleShipmentUpdate` from route.ts lines 104-129: skip when the
payload has no truthy `awb`; otherwise update the row whose
`shiprocket_order_id` equals the payload's `order_id` (an absent `order_id`
matches no row). -/
def handleShipmentUpdate (p : CheckoutPayload) (now : String)
    (s : CheckoutStore) : CheckoutStore :=
  if ¬ truthyS p.awb then s
  else
    match p.order_id with
    | none => s
    | some k =>
      updateRow s k fun r =>
        { r with
          status := orFalsy p.current_status p.shipment_status
          raw_webhook_data := p
          updated_at := now }

/-- `handlePaymentSuccess` from route.ts lines 132-151: update the row at
the payload's `order_id` to status `paid`. -/
def handlePaymentSuccess (p : CheckoutPayload) (now : String)
    (s : CheckoutStore) : CheckoutStore :=
  match p.order_id with
  | none => s
  | some k =>
    updateRow s k fun r =>
      { r with
        status := some "paid"
        payment_type := orDefault p.payment_method "prepaid"
        raw_webhook_data := p
        updated_at := now }

/-- `generateSignature` from src/lib/shiprocket-checkout.ts lines 207-218:
throws when `SHIPROCKET_CHECKOUT_SECRET` is not configured (falsy),
otherwise returns the base64 HMAC-SHA256 of the payload under the secret
(`hmac` abstracts the crypto primitive). -/
def generateSignature (secret : Option String)
    (hmac : String → String → String) (payload : String) :
    Except String String :=
  if truthyS secret then .ok (hmac (secret.getD "") payload)
  else .error "SHIPROCKET_CHECKOUT_SECRET is not configured"

/-- `verifyWebhook` from src/lib/shiprocket-checkout.ts lines 223-234:
false when no secret is configured; otherwise compare the given signature
with the generated one (a `generateSignature` throw is caught and yields
false). -/
def verifyWebhook (secret : Option String)
    (hmac : String → String → String) (payload signature : String) : Bool :=
  if ¬ truthyS secret then false
  else
    match generateSignature secret hmac payload with
    | .ok expected => signature = expected
    | .error _ => false

/-- `determineEventType` from route.ts lines 67-72, with JS truthiness on
the payload fields. -/
def determineEventType (p : CheckoutPayload) : String :=
  if truthyS p.order_id ∧ truthyS p.payment_status then "checkout.completed"
  else if truthyS p.awb ∨ truthyS p.shipment_id then "shipment.status"
  else if truthyS p.transaction_id then "payment.success"
  else "unknown"

/-- `payload.event || determineEventType(payload)` (route.ts line 33). -/
def eventType (p : CheckoutPayload) : String :=
  orDefault p.event (determineEventType p)

/-- The event dispatch of the checkout webhook `POST` (route.ts lines
27-63), after signature checking: JSON parse failure throws into the catch
(500); a handler's database error throws into the catch (500, store
unchanged); otherwise 200 `{success: true}` with the handler's effect
applied (unknown events are only logged). -/
def checkoutDispatch (parsed : Option CheckoutPayload) (dbOk : Bool)
    (now : String) (s : CheckoutStore) : Nat × CheckoutStore :=
  match parsed with
  | none => (500, s)
  | some p =>
    let et := eventType p
    if et = "checkout.completed" ∨ et = "order.created" then
      if dbOk then (200, handleOrderCreated p now s) else (500, s)
    else if et = "shipment.status" ∨ et = "tracking.update" then
      if dbOk then (200, handleShipmentUpdate p now s) else (500, s)
    else if et = "payment.success" then
      if dbOk then (200, handlePaymentSuccess p now s) else (500, s)
    else (200, s)

/-- `POST` of the checkout webhook (route.ts lines 13-64): the signature is
the `x-shiprocket-signature` header or `''`; verification runs only when
the secret is configured (truthy) and the signature is non-empty, and a
failed verification returns 401; then the payload is dispatched.  Returns
the HTTP status and the resulting `shiprocket_orders` table. -/
def checkoutWebhookPOST (secret : Option String)
    (hmac : String → String → String) (rawBody : String)
    (sigHeader : Option String) (parsed : Option CheckoutPayload)
    (dbOk : Bool) (now : String) (s : CheckoutStore) : Nat × CheckoutStore :=
  if truthyS secret ∧ sigHeader.getD "" ≠ "" then
    if ¬ verifyWebhook secret hmac rawBody (sigHeader.getD "") then (401, s)
    else checkoutDispatch parsed dbOk now s
  else checkoutDispatch parsed dbOk now s

/-! ## Carrier API client (src/lib/store.ts lines 397-487)

Module state `cachedToken` / `tokenExpiry` becomes an explicit
`TokenState`; `Date.now()` becomes an explicit `now : Int` (milliseconds);
the login `fetch` result is injected as a `LoginFetch`.  Thrown
`ShiprocketError`s (and the uncaught JSON-parse exception of the success
path) become `Except` errors carrying the constructor arguments. -/

/-- Parsed JSON values, for response bodies. -/
inductive Json where
  | null
  | bool (b : Bool)
  | num (n : Int)
  | str (s : String)
  | arr (xs : List Json)
  | obj (fields : List (String × Json))

/-- The empty object `{}` substituted by `.catch(() => ({}))`. -/
def Json.emptyObj : Json := .obj []

/-- Property access `data.token` returning a string, `none` when absent or
not a string. -/
def Json.getStr (j : Json) (key : String) : Option String :=
  match j with
  | .obj fields =>
    match fields.lookup key with
    | some (.str s) => some s
    | _ => none
  | _ => none

/-- `SHIPROCKET_BASE_URL` from src/lib/store.ts line 397. -/
def SHIPROCKET_BASE_URL : String := "https://apiv2.shiprocket.in/v1/external"

/-- The module-level token cache (src/lib/store.ts lines 400-401). -/
structure TokenState where
  cachedToken : Option String
  tokenExpiry : Int
deriving DecidableEq, Repr

/-- The initial cache: `cachedToken = null`, `tokenExpiry = 0`. -/
def TokenState.init : TokenState := ⟨none, 0⟩

/-- A thrown error: the arguments of a `ShiprocketError` (message, optional
status code, optional API error body), also used for the plain exception a
failing `response.json()` would raise on the success path. -/
structure SRError where
  message : String
  statusCode : Option Int
  apiError : Option Json

/-- The result of a `fetch`: HTTP ok flag, status, status text, and the
JSON parse of the body (`none` when parsing rejects). -/
structure LoginFetch where
  ok : Bool
  status : Int
  statusText : String
  jsonBody : Option Json

/-- `getToken` from src/lib/store.ts lines 420-456.  Returns the token, the
cache afterwards, and whether the network login request was performed.
The cached token is returned — with no login request — exactly when it is
truthy and `now < tokenExpiry - 5 * 60 * 1000`; otherwise missing
credentials throw, a non-ok login response throws with the parsed error
body (`{}` on parse failure), and a successful login caches `data.token`
with expiry `now + 24` hours. -/
def getToken (now : Int) (email password : Option String)
    (login : LoginFetch) (st : TokenState) :
    Except SRError (String × TokenState × Bool) :=
  if truthyS st.cachedToken ∧ now < st.tokenExpiry - 5 * 60 * 1000 then
    .ok (st.cachedToken.getD "", st, false)
  else if ¬ (truthyS email ∧ truthyS password) then
    .error ⟨"Shiprocket credentials not configured. Set SHIPROCKET_EMAIL and SHIPROCKET_PASSWORD environment variables.", none, none⟩
  else if ¬ login.ok then
    .error ⟨"Authentication failed: " ++ login.statusText, some login.status,
            some (login.jsonBody.getD Json.emptyObj)⟩
  else
    match login.jsonBody with
    | none => .error ⟨"Unexpected end of JSON input", none, none⟩
    | some data =>
      let tok := data.getStr "token"
      .ok (tok.getD "",
           ⟨tok, now + 24 * 60 * 60 * 1000⟩,
           true)

/-- The request sent to the carrier endpoint, as assembled by
`apiRequest`. -/
structure SentRequest where
  url : String
  contentType : String
  authorization : String
deriving DecidableEq, Repr

/-- The injected result of the endpoint `fetch`. -/
structure ApiFetch where
  ok : Bool
  status : Int
  jsonBody : Option Json

/-- `apiRequest` from src/lib/store.ts lines 461-487: obtain a token via
`getToken` (any throw propagates), send the request with the
`Authorization: Bearer` header, parse the body (`{}` on parse failure),
throw a `ShiprocketError` named after the endpoint with the status and
parsed body when the response is not ok, and return the parsed body
otherwise.  The sent request is part of the result. -/
def apiRequest (endpoint : String) (now : Int)
    (email password : Option String) (login : LoginFetch) (st : TokenState)
    (resp : ApiFetch) :
    Except SRError (Json × TokenState × SentRequest) :=
  match getToken now email password login st with
  | .error e => .error e
  | .ok (token, st', _) =>
    let req : SentRequest :=
      ⟨SHIPROCKET_BASE_URL ++ endpoint, "application/json",
       "Bearer " ++ token⟩
    let data := resp.jsonBody.getD Json.emptyObj
    if ¬ resp.ok then
      .error ⟨"API request failed: " ++ endpoint, some resp.status, some data⟩
    else
      .ok (data, st', req)

/-! ## Create-shipment endpoint (src/app/api/shiprocket/create-shipment/route.ts)

`POST /api/shiprocket/create-shipment`: admin check, body parse, order
lookup, duplicate guard, then createOrder → assignAWB → schedulePickup →
generateLabel against the carrier, with the order row updated along the
way.  Carrier call results are injected as `Except SRError` values;
`adminOk` / `parseOk` inject `requireAdmin` and `request.json()`
outcomes. -/

/-- The carrier's create-order response fields the handler reads. -/
structure CreateOrderResp where
  order_id : Int
  shipment_id : Int
  status : String
deriving DecidableEq, Repr

/-- `awbResponse.response?.data` fields the handler reads. -/
structure AwbData where
  awb_code : Option String
  courier_company_id : Option Int
  courier_name : Option String
deriving DecidableEq, Repr

/-- The carrier's assign-AWB response (`response?.data` may be absent). -/
structure AwbResp where
  data : Option AwbData
deriving DecidableEq, Repr

/-- The carrier's schedule-pickup response. -/
structure PickupResp where
  pickup_status : Int
deriving DecidableEq, Repr

/-- The carrier's generate-label response. -/
structure LabelResp where
  label_url : Option String
deriving DecidableEq, Repr

/-- The columns of the `orders` row this endpoint reads and writes. -/
structure ShipOrder where
  id : String
  status : String
  shiprocket_order_id : Option Int
  shiprocket_shipment_id : Option Int
  shiprocket_status : Option String
  shiprocket_error : Option String
  shiprocket_awb_code : Option String
  shiprocket_courier_id : Option Int
  shiprocket_courier_name : Option String
  awb_id : Option String
  courier_name : Option String
  shiprocket_label_url : Option String
deriving DecidableEq, Repr

/-- The endpoint's observable outcome: the HTTP status, the stored order
row afterwards, whether the carrier create-order call was made, and
whether a timeline entry was inserted. -/
structure ShipResult where
  status : Nat
  order : Option ShipOrder
  createCalled : Bool
  timelineInserted : Bool
deriving DecidableEq, Repr

/-- `POST` from src/app/api/shiprocket/create-shipment/route.ts lines
18-221, step by step: non-admin throws into the catch (403); a body-parse
throw reaches the catch (500); a falsy `order_id` returns 400; a missing
order returns 404; a truthy existing `shiprocket_order_id` returns 400
without calling the carrier; a createOrder throw stores the error message
and returns 500; an assignAWB throw stores a prefixed message and returns
207; pickup and label failures are non-fatal; the success path stores AWB
fields, sets status `processing`, optionally the label URL, inserts a
timeline entry, and returns 200. -/
def createShipmentPOST (adminOk parseOk : Bool) (order_id : Option String)
    (found : Option ShipOrder) (createRes : Except SRError CreateOrderResp)
    (awbRes : Except SRError AwbResp) (pickupRes : Except SRError PickupResp)
    (labelRes : Except SRError LabelResp) : ShipResult :=
  if ¬ adminOk then ⟨403, found, false, false⟩
  else if ¬ parseOk then ⟨500, found, false, false⟩
  else if ¬ truthyS order_id then ⟨400, found, false, false⟩
  else
    match found with
    | none => ⟨404, none, false, false⟩
    | some o =>
      if truthyN o.shiprocket_order_id then ⟨400, some o, false, false⟩
      else
        match createRes with
        | .error e =>
          ⟨500, some { o with shiprocket_error := some e.message }, true,
           false⟩
        | .ok sro =>
          let o1 :=
            { o with
              shiprocket_order_id := some sro.order_id
              shiprocket_shipment_id := some sro.shipment_id
              shiprocket_status := some sro.status
              shiprocket_error := none }
          match awbRes with
          | .error e =>
            ⟨207,
             some { o1 with
                    shiprocket_error :=
                      some ("AWB assignment failed: " ++ e.message) },
             true, false⟩
          | .ok awb =>
            let d := awb.data
            let o2 :=
              { o1 with
                shiprocket_awb_code := d.bind (·.awb_code)
                shiprocket_courier_id := d.bind (·.courier_company_id)
                shiprocket_courier_name := d.bind (·.courier_name)
                awb_id := d.bind (·.awb_code)
                courier_name := d.bind (·.courier_name)
                status := "processing" }
            let _ := pickupRes
            let o3 :=
              match labelRes with
              | .ok lr =>
                if truthyS lr.label_url then
                  { o2 with shiprocket_label_url := lr.label_url }
                else o2
              | .error _ => o2
            ⟨200, some o3, true, true⟩

/-! ## Order creation endpoint (src/app/api/orders/route.ts)

`POST /api/orders`: authenticate, validate items and shipping address,
price each item against the catalog with stock validation, then insert the
order with subtotal / shipping / total. -/

/-- The product columns the endpoint reads. -/
structure Product where
  id : String
  name : String
  price : Nat
  discount_price : Option Nat
  stock_remaining : Nat
  image_url : Option String
deriving DecidableEq, Repr

/-- One entry of the request's `items` array. -/
structure ReqItem where
  product_id : String
  size : Option String
  quantity : Nat
deriving DecidableEq, Repr

/-- One row inserted into `order_items`. -/
structure OrderItem where
  product_id : String
  product_name : String
  product_image : Option String
  size : Option String
  quantity : Nat
  unit_price : Nat
  total_price : Nat
deriving DecidableEq, Repr

/-- `product.discount_price || product.price`: the discount price when set
and non-zero (zero is JS-falsy), otherwise the price. -/
def unitPrice (p : Product) : Nat :=
  match p.discount_price with
  | some d => if d = 0 then p.price else d
  | none => p.price

/-- The pricing/validation loop of route.ts lines 56-90: walk the request
items in order; a missing product or insufficient stock returns a 400 with
its message; otherwise accumulate the order items and the subtotal. -/
def buildItems (catalog : String → Option Product) :
    List ReqItem → Except (Nat × String) (List OrderItem × Nat)
  | [] => .ok ([], 0)
  | i :: rest =>
    match catalog i.product_id with
    | none => .error (400, "Product not found: " ++ i.product_id)
    | some p =>
      if p.stock_remaining < i.quantity then
        .error (400, "Insufficient stock for " ++ p.name)
      else
        match buildItems catalog rest with
        | .error e => .error e
        | .ok (os, sub) =>
          .ok (⟨p.id, p.name, p.image_url, i.size, i.quantity, unitPrice p,
                unitPrice p * i.quantity⟩ :: os,
               unitPrice p * i.quantity + sub)

/-- The inserted order, as far as the claims read it. -/
structure CreatedOrder where
  status : String
  subtotal : Nat
  shipping_cost : Nat
  total : Nat
  items : List OrderItem
deriving DecidableEq, Repr

/-- The endpoint's outcome: HTTP status and the created order (when one was
inserted). -/
structure OrdersResult where
  status : Nat
  orderCreated : Option CreatedOrder
deriving DecidableEq, Repr

/-- `POST` from src/app/api/orders/route.ts lines 36-167: unauthenticated
requests reach the catch (401); a body-parse throw reaches the catch (500);
a missing/non-array/empty `items` or missing `shipping` returns 400 before
any pricing; the pricing loop's 400 happens before the insert; a failed
order insert returns 500 with no order; otherwise the order is created as
`pending` with `shipping_cost = 0` iff `subtotal ≥ 999` else `99` and
`total = subtotal + shipping_cost`, returning 201. -/
def ordersPOST (authOk parseOk : Bool) (items : Option (List ReqItem))
    (shippingGiven : Bool) (catalog : String → Option Product)
    (insertOk : Bool) : OrdersResult :=
  if ¬ authOk then ⟨401, none⟩
  else if ¬ parseOk then ⟨500, none⟩
  else
    match items with
    | none => ⟨400, none⟩
    | some l =>
      if l.isEmpty then ⟨400, none⟩
      else if ¬ shippingGiven then ⟨400, none⟩
      else
        match buildItems catalog l with
        | .error (s, _) => ⟨s, none⟩
        | .ok (os, subtotal) =>
          if ¬ insertOk then ⟨500, none⟩
          else
            let shippingCost : Nat := if subtotal ≥ 999 then 0 else 99
            ⟨201, some ⟨"pending", subtotal, shippingCost,
                        subtotal + shippingCost, os⟩⟩

/-! ## Theorems -/

/-- C5 (counterexample): `SHIPMENT_STATUS_MAP` does not have 24 entries —
it has 23 (ids 1-10, 12-22, 38 and 42; there is no id 11). -/
theorem C5_counterexample_map_is_not_24_entries :
    SHIPMENT_STATUS_MAP.length = 23 ∧ SHIPMENT_STATUS_MAP.length ≠ 24 := by
  decide

/-- C5 (amended): `SHIPMENT_STATUS_MAP` assigns each of its 23 listed
status ids its fixed label, and `mapShiprocketStatusToOrderStatus` returns
`delivered` exactly for 7, `cancelled` exactly for 8 and 16, `shipped`
exactly for 6, 17, 18 and 42, `returned` exactly for 9, 10 and 14, and
`processing` exactly for every other integer; both are total functions of
the integer input. -/
theorem C5_status_mapping :
    SHIPMENT_STATUS_MAP.length = 23 ∧
    (∀ e ∈ SHIPMENT_STATUS_MAP, statusLabel e.1 = some e.2) ∧
    ∀ c : Int,
      (mapShiprocketStatusToOrderStatus c = "delivered" ↔ c = 7) ∧
      (mapShiprocketStatusToOrderStatus c = "cancelled" ↔ (c = 8 ∨ c = 16)) ∧
      (mapShiprocketStatusToOrderStatus c = "shipped" ↔
        (c = 6 ∨ c = 17 ∨ c = 18 ∨ c = 42)) ∧
      (mapShiprocketStatusToOrderStatus c = "returned" ↔
        (c = 9 ∨ c = 10 ∨ c = 14)) ∧
      (mapShiprocketStatusToOrderStatus c = "processing" ↔
        ¬(c = 7 ∨ c = 8 ∨ c = 16 ∨ c = 6 ∨ c = 17 ∨ c = 18 ∨ c = 42 ∨
          c = 9 ∨ c = 10 ∨ c = 14)) := by
  refine ⟨by decide, by decide, ?_⟩
  intro c
  unfold mapShiprocketStatusToOrderStatus
  split_ifs with h1 h2 h3 h4 <;> simp_all <;> omega

/-- C5 witness: the lookup and the mapping at concrete inputs. -/
theorem C5_status_mapping_witness :
    statusLabel 38 = some "REACHED_DESTINATION_HUB" ∧
    mapShiprocketStatusToOrderStatus 999 = "processing" :=
  ⟨C5_status_mapping.2.1 (38, "REACHED_DESTINATION_HUB") (by decide),
   (C5_status_mapping.2.2 999).2.2.2.2.mpr (by decide)⟩

/-- C4 (counterexample): an order whose stored status is `delivered`,
processed with a webhook payload carrying the unknown status id 999, has
its status overwritten with the default mapping `processing` — the status
does move backward. -/
theorem C4_counterexample_delivered_regresses :
    (⟨"order-1", "delivered", none, none, none, none⟩ : TrackedOrder).status
        = "delivered" ∧
    (processWebhookOrder
        ⟨"order-1", "delivered", none, none, none, none⟩
        ⟨"AWB1", "courier", "UNKNOWN", 999, "UNKNOWN", 999, "ts", "ord-1",
         123, none, none, none, none, 0, none, none⟩
        "2026-01-01T00:00:00Z").status = "processing" := by
  constructor <;> rfl

/-- C4 (amended): the webhook-driven status is last-writer-wins rather
than a monotone progression: after processing any tracking payload the
order's status equals `mapShiprocketStatusToOrderStatus` of that payload's
`shipment_status_id` — so a payload with an unknown status id sets a
`delivered` order back to `processing`. -/
theorem C4_status_is_last_writer_wins (o : TrackedOrder) (p : TrackPayload)
    (now : String) :
    (processWebhookOrder o p now).status =
      mapShiprocketStatusToOrderStatus p.shipment_status_id := by
  unfold processWebhookOrder
  by_cases h : mapShiprocketStatusToOrderStatus p.shipment_status_id ≠ o.status
  · simp [h]
  · push_neg at h
    simp [h]

/-- C7: the tracking webhook's `POST` returns HTTP 200 for every request —
when processing throws, and on each of the non-throwing error paths
(unparseable payload, no matching order, failed database update). -/
theorem C7_tracking_webhook_always_200 :
    (∀ threw parsed found updateOk now,
        (trackingWebhookPOST threw parsed found updateOk now).status = 200) ∧
    (∀ found updateOk now,
        trackingWebhookPOST false none found updateOk now =
          ⟨200, "received", some .invalidPayload⟩) ∧
    (∀ p updateOk now,
        trackingWebhookPOST false (some p) none updateOk now =
          ⟨200, "received", some .orderNotFound⟩) ∧
    (∀ p o now,
        trackingWebhookPOST false (some p) (some o) false now =
          ⟨200, "received",
           some (.updateFailed o.id (processWebhookOrder o p now))⟩) := by
  refine ⟨?_, ?_, ?_, ?_⟩
  · intro threw parsed found updateOk now
    cases threw <;> rfl
  · intro found updateOk now
    rfl
  · intro p updateOk now
    rfl
  · intro p o now
    rfl

/-- A keyed `update` absorbs an earlier keyed `update` whose effect it
overwrites. -/
theorem updateRow_absorb (s : CheckoutStore) (key : String)
    (f g : CheckoutRow → CheckoutRow) (h : ∀ r, g (f r) = g r) :
    updateRow (updateRow s key f) key g = updateRow s key g := by
  funext k
  unfold updateRow
  by_cases hk : k = key
  · subst hk
    simp only [if_pos rfl]
    cases s k with
    | none => rfl
    | some r => simp [h r]
  · simp [hk]

/-- C1: the checkout webhook's handlers are idempotent on the
`shiprocket_orders` table, keyed by the external order id: reprocessing the
same payload leaves the table exactly as processing it once did (the
order-created upsert, the shipment-status update and the payment-success
update all absorb an earlier processing of the same payload). -/
theorem C1_checkout_handlers_idempotent :
    (∀ (p : CheckoutPayload) (t1 t2 : String) (s : CheckoutStore),
        handleOrderCreated p t2 (handleOrderCreated p t1 s) =
          handleOrderCreated p t2 s) ∧
    (∀ (p : CheckoutPayload) (t1 t2 : String) (s : CheckoutStore),
        handleShipmentUpdate p t2 (handleShipmentUpdate p t1 s) =
          handleShipmentUpdate p t2 s) ∧
    (∀ (p : CheckoutPayload) (t1 t2 : String) (s : CheckoutStore),
        handlePaymentSuccess p t2 (handlePaymentSuccess p t1 s) =
          handlePaymentSuccess p t2 s) := by
  refine ⟨?_, ?_, ?_⟩
  · intro p t1 t2 s
    funext k
    unfold handleOrderCreated upsertRow
    by_cases h : k = p.order_id.getD "" <;> simp [h]
  · intro p t1 t2 s
    by_cases ha : truthyS p.awb
    · cases hp : p.order_id with
      | none => simp [handleShipmentUpdate, ha, hp]
      | some key =>
        simp only [handleShipmentUpdate, ha, hp, not_true, if_false]
        exact updateRow_absorb s key _ _ fun r => rfl
    · simp [handleShipmentUpdate, ha]
  · intro p t1 t2 s
    cases hp : p.order_id with
    | none => simp [handlePaymentSuccess, hp]
    | some key =>
      simp only [handlePaymentSuccess, hp]
      exact updateRow_absorb s key _ _ fun r => rfl

/-- C2: `getToken` is expiry-gated.  A cached (non-empty) token is returned
with no network login request whenever `now` is more than five minutes
before the stored expiry; otherwise the login request is made: missing
credentials throw a `ShiprocketError`, a non-ok login response throws a
`ShiprocketError` with the status and parsed error body, and a successful
login caches `data.token` with expiry 24 hours from `now` and returns
it. -/
theorem C2_token_cache_expiry_gated (now : Int) (email password : Option String)
    (login : LoginFetch) (st : TokenState) :
    (∀ tok, st.cachedToken = some tok → tok ≠ "" →
        now < st.tokenExpiry - 5 * 60 * 1000 →
        getToken now email password login st = .ok (tok, st, false)) ∧
    (¬ (truthyS st.cachedToken ∧ now < st.tokenExpiry - 5 * 60 * 1000) →
      (¬ (truthyS email ∧ truthyS password) →
        getToken now email password login st =
          .error ⟨"Shiprocket credentials not configured. Set SHIPROCKET_EMAIL and SHIPROCKET_PASSWORD environment variables.", none, none⟩) ∧
      (truthyS email → truthyS password → login.ok = false →
        getToken now email password login st =
          .error ⟨"Authentication failed: " ++ login.statusText,
                  some login.status,
                  some (login.jsonBody.getD Json.emptyObj)⟩) ∧
      (truthyS email → truthyS password → login.ok = true →
        ∀ data, login.jsonBody = some data →
          getToken now email password login st =
            .ok ((data.getStr "token").getD "",
                 ⟨data.getStr "token", now + 24 * 60 * 60 * 1000⟩,
                 true))) := by
  constructor
  · intro tok htok hne hfresh
    have ht : truthyS st.cachedToken = true := by
      simp [truthyS, htok, hne]
    unfold getToken
    rw [if_pos ⟨ht, hfresh⟩]
    simp [htok]
  · intro hstale
    refine ⟨?_, ?_, ?_⟩
    · intro hcred
      unfold getToken
      rw [if_neg hstale, if_pos hcred]
    · intro he hp hnok
      unfold getToken
      rw [if_neg hstale, if_neg (not_not_intro ⟨he, hp⟩),
          if_pos (by simp [hnok])]
    · intro he hp hok data hdata
      unfold getToken
      rw [if_neg hstale, if_neg (not_not_intro ⟨he, hp⟩),
          if_neg (by simp [hok])]
      simp [hdata]

/-- C2 witness: a fresh cached token short-circuits the login; with an
expired cache and missing credentials the call throws. -/
theorem C2_token_cache_expiry_gated_witness :
    getToken 0 (some "a@b.c") (some "pw") ⟨true, 200, "OK", none⟩
        ⟨some "tok", 1000000000⟩ =
      .ok ("tok", ⟨some "tok", 1000000000⟩, false) ∧
    getToken 0 none none ⟨true, 200, "OK", none⟩ ⟨none, 0⟩ =
      .error ⟨"Shiprocket credentials not configured. Set SHIPROCKET_EMAIL and SHIPROCKET_PASSWORD environment variables.", none, none⟩ :=
  ⟨(C2_token_cache_expiry_gated 0 (some "a@b.c") (some "pw")
      ⟨true, 200, "OK", none⟩ ⟨some "tok", 1000000000⟩).1 "tok" rfl
      (by decide) (by decide),
   ((C2_token_cache_expiry_gated 0 none none ⟨true, 200, "OK", none⟩
      ⟨none, 0⟩).2 (by simp [truthyS]) |>.1) (by simp [truthyS])⟩

/-- C6: `apiRequest` authenticates first (a `getToken` throw propagates
unchanged), sends the request to the endpoint URL with the
`Authorization: Bearer` header carrying the obtained token, and — with the
body parsed as JSON, `{}` on parse failure — throws a `ShiprocketError`
carrying the endpoint name, HTTP status and parsed body exactly when the
response is not ok, returning the parsed body otherwise. -/
theorem C6_apiRequest_auth_call_map (endpoint : String) (now : Int)
    (email password : Option String) (login : LoginFetch) (st : TokenState)
    (resp : ApiFetch) :
    (∀ e, getToken now email password login st = .error e →
        apiRequest endpoint now email password login st resp = .error e) ∧
    (∀ tok st' net,
        getToken now email password login st = .ok (tok, st', net) →
      (resp.ok = false →
        apiRequest endpoint now email password login st resp =
          .error ⟨"API request failed: " ++ endpoint, some resp.status,
                  some (resp.jsonBody.getD Json.emptyObj)⟩) ∧
      (resp.ok = true →
        apiRequest endpoint now email password login st resp =
          .ok (resp.jsonBody.getD Json.emptyObj, st',
               ⟨SHIPROCKET_BASE_URL ++ endpoint, "application/json",
                "Bearer " ++ tok⟩)) ∧
      ((∃ err, apiRequest endpoint now email password login st resp =
          .error err) ↔ resp.ok = false)) := by
  constructor
  · intro e he
    unfold apiRequest
    rw [he]
  · intro tok st' net hok
    have h1 : resp.ok = false →
        apiRequest endpoint now email password login st resp =
          .error ⟨"API request failed: " ++ endpoint, some resp.status,
                  some (resp.jsonBody.getD Json.emptyObj)⟩ := by
      intro hnok
      unfold apiRequest
      rw [hok]
      simp [hnok]
    have h2 : resp.ok = true →
        apiRequest endpoint now email password login st resp =
          .ok (resp.jsonBody.getD Json.emptyObj, st',
               ⟨SHIPROCKET_BASE_URL ++ endpoint, "application/json",
                "Bearer " ++ tok⟩) := by
      intro hko
      unfold apiRequest
      rw [hok]
      simp [hko]
    refine ⟨h1, h2, ?_⟩
    constructor
    · rintro ⟨err, herr⟩
      cases hro : resp.ok with
      | false => rfl
      | true => rw [h2 hro] at herr; exact absurd herr (by simp)
    · intro hnok
      exact ⟨_, h1 hnok⟩

/-- C6 witness: with a valid cached token, a 404 endpoint response throws
the endpoint-named error and an ok response returns the parsed body with
the Bearer header. -/
theorem C6_apiRequest_witness :
    apiRequest "/orders" 0 none none ⟨true, 200, "OK", none⟩
        ⟨some "tok", 1000000000⟩ ⟨false, 404, none⟩ =
      .error ⟨"API request failed: /orders", some 404, some Json.emptyObj⟩ ∧
    apiRequest "/orders" 0 none none ⟨true, 200, "OK", none⟩
        ⟨some "tok", 1000000000⟩ ⟨true, 200, some (Json.num 5)⟩ =
      .ok (Json.num 5, ⟨some "tok", 1000000000⟩,
           ⟨SHIPROCKET_BASE_URL ++ "/orders", "application/json",
            "Bearer tok"⟩) :=
  ⟨((C6_apiRequest_auth_call_map "/orders" 0 none none ⟨true, 200, "OK", none⟩
      ⟨some "tok", 1000000000⟩ ⟨false, 404, none⟩).2 "tok"
      ⟨some "tok", 1000000000⟩ false (by unfold getToken; rfl)).1 rfl,
   ((C6_apiRequest_auth_call_map "/orders" 0 none none ⟨true, 200, "OK", none⟩
      ⟨some "tok", 1000000000⟩ ⟨true, 200, some (Json.num 5)⟩).2 "tok"
      ⟨some "tok", 1000000000⟩ false (by unfold getToken; rfl)).2.1 rfl⟩

/-- The checkout event dispatch only ever answers 200 or 500. -/
theorem checkoutDispatch_status (parsed : Option CheckoutPayload)
    (dbOk : Bool) (now : String) (s : CheckoutStore) :
    (checkoutDispatch parsed dbOk now s).1 = 200 ∨
      (checkoutDispatch parsed dbOk now s).1 = 500 := by
  unfold checkoutDispatch
  cases parsed with
  | none => right; rfl
  | some p =>
    dsimp only
    split_ifs <;> simp

/-- `verifyWebhook` succeeds exactly when a secret is configured and the
signature equals the generated digest. -/
theorem verifyWebhook_eq_true (secret : Option String)
    (hmac : String → String → String) (payload signature : String) :
    verifyWebhook secret hmac payload signature = true ↔
      (truthyS secret = true ∧
        signature = hmac (secret.getD "") payload) := by
  unfold verifyWebhook generateSignature
  by_cases hs : truthyS secret = true <;> simp [hs]

/-- C8: the checkout webhook's signature check is bypassable by omitting
the header.  The handler answers 401 exactly when the secret is configured
(truthy), the signature header is non-empty, and it differs from the
HMAC digest of the raw body under the secret (`hmac` abstracts
base64 HMAC-SHA256); `verifyWebhook` is constantly false without a
configured secret; and a request with no signature header is dispatched
with no verification at all, whatever the secret. -/
theorem C8_signature_gate_bypass (secret : Option String)
    (hmac : String → String → String) (rawBody : String)
    (sigHeader : Option String) (parsed : Option CheckoutPayload)
    (dbOk : Bool) (now : String) (s : CheckoutStore) :
    ((checkoutWebhookPOST secret hmac rawBody sigHeader parsed dbOk now
        s).1 = 401 ↔
      (truthyS secret = true ∧ sigHeader.getD "" ≠ "" ∧
        sigHeader.getD "" ≠ hmac (secret.getD "") rawBody)) ∧
    (truthyS secret = false →
      ∀ sig, verifyWebhook secret hmac rawBody sig = false) ∧
    (checkoutWebhookPOST secret hmac rawBody none parsed dbOk now s =
      checkoutDispatch parsed dbOk now s) := by
  refine ⟨?_, ?_, ?_⟩
  · unfold checkoutWebhookPOST
    by_cases hgate : truthyS secret = true ∧ sigHeader.getD "" ≠ ""
    · rw [if_pos hgate]
      by_cases hv : verifyWebhook secret hmac rawBody (sigHeader.getD "") =
          true
      · rw [if_neg (by simp [hv])]
        have hsig := (verifyWebhook_eq_true secret hmac rawBody
          (sigHeader.getD "")).mp hv
        constructor
        · intro h401
          rcases checkoutDispatch_status parsed dbOk now s with h | h <;>
            omega
        · rintro ⟨-, -, hne⟩
          exact absurd hsig.2 hne
      · rw [if_pos (by simp [hv])]
        constructor
        · intro _
          refine ⟨hgate.1, hgate.2, fun heq => hv ?_⟩
          exact (verifyWebhook_eq_true secret hmac rawBody
            (sigHeader.getD "")).mpr ⟨hgate.1, heq⟩
        · intro _
          rfl
    · rw [if_neg hgate]
      constructor
      · intro h401
        rcases checkoutDispatch_status parsed dbOk now s with h | h <;> omega
      · rintro ⟨h1, h2, -⟩
        exact absurd ⟨h1, h2⟩ hgate
  · intro hs sig
    unfold verifyWebhook
    simp [hs]
  · unfold checkoutWebhookPOST
    rw [if_neg]
    simp

/-- C8 witness: with a configured secret, a wrong non-empty signature gets
401, and `verifyWebhook` is false with no secret. -/
theorem C8_signature_gate_bypass_witness :
    (checkoutWebhookPOST (some "sec") (fun k m => k ++ ":" ++ m) "body"
        (some "wrong") none true "t" (fun _ => none)).1 = 401 ∧
    verifyWebhook none (fun k m => k ++ ":" ++ m) "body" "sec:body" =
      false :=
  ⟨(C8_signature_gate_bypass (some "sec") (fun k m => k ++ ":" ++ m) "body"
      (some "wrong") none true "t" (fun _ => none)).1.mpr
      ⟨rfl, by decide, by decide⟩,
   (C8_signature_gate_bypass none (fun k m => k ++ ":" ++ m) "body"
      (some "x") none true "t" (fun _ => none)).2.1 rfl "sec:body"⟩

/-- C3 (counterexample): the create-shipment handler's AWB-failure error
path returns HTTP 207 — neither a 500 with a JSON error body nor a
retry-suppressing 200. -/
theorem C3_counterexample_awb_failure_is_207 :
    (createShipmentPOST true true (some "o1")
        (some ⟨"o1", "pending", none, none, none, none, none, none, none,
               none, none, none⟩)
        (.ok ⟨101, 202, "NEW"⟩) (.error ⟨"awb fail", some 400, none⟩)
        (.ok ⟨1⟩) (.ok ⟨none⟩)).status = 207 ∧
    (207 : Nat) ≠ 500 ∧ (207 : Nat) ≠ 200 :=
  ⟨rfl, by decide, by decide⟩

/-- C3 (amended): on every input the tracking webhook answers 200; the
checkout webhook answers 200, 401 (invalid signature) or 500 (its
catch-all); and the create-shipment handler answers 200, 207 (order
created but AWB assignment failed), 400, 403, 404 or 500 — these lists
are exhaustive for the three shipment-integration handlers. -/
theorem C3_amended_handler_status_sets :
    (∀ threw parsed found updateOk now,
        (trackingWebhookPOST threw parsed found updateOk now).status =
          200) ∧
    (∀ secret hmac rawBody sigHeader parsed dbOk now s,
        (checkoutWebhookPOST secret hmac rawBody sigHeader parsed dbOk now
            s).1 = 200 ∨
        (checkoutWebhookPOST secret hmac rawBody sigHeader parsed dbOk now
            s).1 = 401 ∨
        (checkoutWebhookPOST secret hmac rawBody sigHeader parsed dbOk now
            s).1 = 500) ∧
    (∀ adminOk parseOk oid found createRes awbRes pickupRes labelRes,
        (createShipmentPOST adminOk parseOk oid found createRes awbRes
            pickupRes labelRes).status = 200 ∨
        (createShipmentPOST adminOk parseOk oid found createRes awbRes
            pickupRes labelRes).status = 207 ∨
        (createShipmentPOST adminOk parseOk oid found createRes awbRes
            pickupRes labelRes).status = 400 ∨
        (createShipmentPOST adminOk parseOk oid found createRes awbRes
            pickupRes labelRes).status = 403 ∨
        (createShipmentPOST adminOk parseOk oid found createRes awbRes
            pickupRes labelRes).status = 404 ∨
        (createShipmentPOST adminOk parseOk oid found createRes awbRes
            pickupRes labelRes).status = 500) := by
  refine ⟨?_, ?_, ?_⟩
  · intro threw parsed found updateOk now
    cases threw <;> rfl
  · intro secret hmac rawBody sigHeader parsed dbOk now s
    unfold checkoutWebhookPOST
    split_ifs with h1 h2
    all_goals first
      | (right; left; rfl)
      | (rcases checkoutDispatch_status parsed dbOk now s with h | h <;>
          simp [h])
  · intro adminOk parseOk oid found createRes awbRes pickupRes labelRes
    cases adminOk with
    | false => right; right; right; left; rfl
    | true =>
      cases parseOk with
      | false => right; right; right; right; right; rfl
      | true =>
        by_cases ho : truthyS oid = true
        · rcases found with - | o
          · right; right; right; right; left
            simp [createShipmentPOST, ho]
          · by_cases hd : truthyN o.shiprocket_order_id = true
            · right; right; left
              simp [createShipmentPOST, ho, hd]
            · rcases createRes with e | sro
              · right; right; right; right; right
                simp [createShipmentPOST, ho, hd]
              · rcases awbRes with e2 | awb
                · right; left
                  simp [createShipmentPOST, ho, hd]
                · rcases labelRes with e3 | lr
                  · left
                    simp [createShipmentPOST, ho, hd]
                  · left
                    simp [createShipmentPOST, ho, hd]
        · right; right; left
          simp [createShipmentPOST, ho]

/-- C9: the create-shipment endpoint guards duplicates and keeps the order
unshipped on carrier failure.  With an admin caller, a parsed body and a
truthy `order_id`: an order whose `shiprocket_order_id` is already truthy
gets 400 with the carrier never called and the row untouched; and when the
carrier's createOrder throws, the row gains only `shiprocket_error` (the
thrown message) — `shiprocket_order_id`, `shiprocket_shipment_id` and
`shiprocket_status` keep their old values — the response is 500, and a
retry on the stored row is not rejected as a duplicate (never 400). -/
theorem C9_duplicate_guard_unshipped_on_failure (oid : Option String)
    (o : ShipOrder) (createRes : Except SRError CreateOrderResp)
    (awbRes : Except SRError AwbResp) (pickupRes : Except SRError PickupResp)
    (labelRes : Except SRError LabelResp)
    (hoid : truthyS oid = true) :
    (truthyN o.shiprocket_order_id = true →
        createShipmentPOST true true oid (some o) createRes awbRes pickupRes
            labelRes = ⟨400, some o, false, false⟩) ∧
    (truthyN o.shiprocket_order_id = false →
      ∀ e, createRes = .error e →
        createShipmentPOST true true oid (some o) createRes awbRes pickupRes
            labelRes =
          ⟨500, some { o with shiprocket_error := some e.message }, true,
           false⟩ ∧
        ∀ (createRes2 : Except SRError CreateOrderResp) awbRes2 pickupRes2
            labelRes2,
          (createShipmentPOST true true oid
              (some { o with shiprocket_error := some e.message }) createRes2
              awbRes2 pickupRes2 labelRes2).status ≠ 400) := by
  constructor
  · intro hdup
    simp [createShipmentPOST, hoid, hdup]
  · intro hnew e he
    constructor
    · simp [createShipmentPOST, hoid, hnew, he]
    · intro createRes2 awbRes2 pickupRes2 labelRes2
      have hnew2 : truthyN ({ o with shiprocket_error := some e.message } :
          ShipOrder).shiprocket_order_id = false := hnew
      rcases createRes2 with e2 | sro
      · simp [createShipmentPOST, hoid, hnew2]
      · rcases awbRes2 with e3 | awb
        · simp [createShipmentPOST, hoid, hnew2]
        · rcases labelRes2 with e4 | lr <;>
            simp [createShipmentPOST, hoid, hnew2]

/-- C9 witness: an unshipped order with a failing carrier create call gets
a 500, the error message stored, and no Shiprocket ids set. -/
theorem C9_duplicate_guard_witness :
    createShipmentPOST true true (some "o1")
        (some ⟨"o1", "pending", none, none, none, none, none, none, none,
               none, none, none⟩)
        (.error ⟨"boom", none, none⟩) (.ok ⟨none⟩) (.ok ⟨1⟩) (.ok ⟨none⟩) =
      ⟨500,
       some ⟨"o1", "pending", none, none, none, some "boom", none, none,
             none, none, none, none⟩,
       true, false⟩ :=
  ((C9_duplicate_guard_unshipped_on_failure (some "o1")
      ⟨"o1", "pending", none, none, none, none, none, none, none, none,
       none, none⟩
      (.error ⟨"boom", none, none⟩) (.ok ⟨none⟩) (.ok ⟨1⟩) (.ok ⟨none⟩)
      rfl).2 rfl ⟨"boom", none, none⟩ rfl).1

/-- A successful pricing loop prices every item against its catalog
product (with the stock check passed) and sums the line totals. -/
theorem buildItems_ok_spec (catalog : String → Option Product) :
    ∀ (l : List ReqItem) (os : List OrderItem) (sub : Nat),
      buildItems catalog l = .ok (os, sub) →
      sub = (os.map fun it => it.total_price).sum ∧
      List.Forall₂ (fun (i : ReqItem) (it : OrderItem) =>
        ∃ p, catalog i.product_id = some p ∧
          i.quantity ≤ p.stock_remaining ∧
          it.unit_price = unitPrice p ∧ it.quantity = i.quantity ∧
          it.total_price = unitPrice p * i.quantity) l os := by
  intro l
  induction l with
  | nil =>
    intro os sub h
    rw [buildItems] at h
    simp only [Except.ok.injEq, Prod.mk.injEq] at h
    obtain ⟨hos, hsub⟩ := h
    subst hos
    subst hsub
    exact ⟨rfl, List.Forall₂.nil⟩
  | cons i rest ih =>
    intro os sub h
    rw [buildItems] at h
    cases hc : catalog i.product_id with
    | none =>
      rw [hc] at h
      exact absurd h (by simp)
    | some p =>
      rw [hc] at h
      dsimp only at h
      by_cases hs : p.stock_remaining < i.quantity
      · rw [if_pos hs] at h
        exact absurd h (by simp)
      · rw [if_neg hs] at h
        cases hr : buildItems catalog rest with
        | error e =>
          rw [hr] at h
          exact absurd h (by simp)
        | ok pr =>
          obtain ⟨os', sub'⟩ := pr
          rw [hr] at h
          simp only [Except.ok.injEq, Prod.mk.injEq] at h
          obtain ⟨hos, hsub⟩ := h
          subst hos
          subst hsub
          obtain ⟨h1, h2⟩ := ih os' sub' hr
          refine ⟨by simp [h1], ?_⟩
          exact List.Forall₂.cons ⟨p, hc, by omega, rfl, rfl, rfl⟩ h2

/-- A request list containing a missing product or an out-of-stock item
makes the pricing loop fail with a 400. -/
theorem buildItems_error_of_bad (catalog : String → Option Product) :
    ∀ l : List ReqItem,
      (∃ i ∈ l, catalog i.product_id = none ∨
        ∃ p, catalog i.product_id = some p ∧
          p.stock_remaining < i.quantity) →
      ∃ msg, buildItems catalog l = .error (400, msg) := by
  intro l
  induction l with
  | nil =>
    rintro ⟨i, hi, -⟩
    simp at hi
  | cons j rest ih =>
    rintro ⟨i, hi, hbad⟩
    rw [buildItems]
    cases hc : catalog j.product_id with
    | none => exact ⟨_, rfl⟩
    | some p =>
      dsimp only
      by_cases hs : p.stock_remaining < j.quantity
      · rw [if_pos hs]
        exact ⟨_, rfl⟩
      · rw [if_neg hs]
        have hir : i ∈ rest := by
          rcases List.mem_cons.mp hi with h | h
          · subst h
            rcases hbad with h0 | ⟨q, hq, hlt⟩
            · rw [hc] at h0
              exact absurd h0 (by simp)
            · rw [hc] at hq
              injection hq with hq
              subst hq
              exact absurd hlt hs
          · exact h
        obtain ⟨msg, hmsg⟩ := ih ⟨i, hir, hbad⟩
        rw [hmsg]
        exact ⟨msg, rfl⟩

/-- `ordersPOST` with the authenticated, parsed-body path spelled out. -/
theorem ordersPOST_true_eq (items : List ReqItem) (shippingGiven : Bool)
    (catalog : String → Option Product) (insertOk : Bool) :
    ordersPOST true true (some items) shippingGiven catalog insertOk =
      (if items.isEmpty then ⟨400, none⟩
       else if ¬ shippingGiven then ⟨400, none⟩
       else
         match buildItems catalog items with
         | .error (s, _) => ⟨s, none⟩
         | .ok (os, subtotal) =>
           if ¬ insertOk then ⟨500, none⟩
           else
             ⟨201, some ⟨"pending", subtotal,
                         if subtotal ≥ 999 then 0 else 99,
                         subtotal + (if subtotal ≥ 999 then 0 else 99),
                         os⟩⟩ : OrdersResult) := by
  rfl

/-- C10 (counterexample): for a product whose `discount_price` is set to 0
(and price 100), the order is priced with unit price 100 — the JS `||`
falls back to `price` on a zero discount, so "discount_price when set"
fails. -/
theorem C10_counterexample_zero_discount_ignored :
    (ordersPOST true true (some [⟨"p1", none, 1⟩]) true
        (fun pid => if pid = "p1"
          then some ⟨"p1", "Tee", 100, some 0, 10, none⟩ else none)
        true).orderCreated =
      some ⟨"pending", 100, 99, 199,
            [⟨"p1", "Tee", none, none, 1, 100, 100⟩]⟩ ∧
    (100 : Nat) ≠ 0 :=
  ⟨rfl, by decide⟩

/-- C10 (amended): on the authenticated, parsed path, every created order
prices each item at the product's `discount_price` when set and non-zero,
otherwise its `price` (the `unitPrice` of its catalog product, with the
stock check passed); the subtotal is the sum of line totals;
`shipping_cost` is 0 exactly when the subtotal is at least 999 and 99
otherwise; the total is their sum; and any request containing a missing
product or an item whose quantity exceeds the remaining stock is answered
400 with no order created. -/
theorem C10_amended_order_amounts (items : List ReqItem)
    (shippingGiven : Bool) (catalog : String → Option Product)
    (insertOk : Bool) :
    (∀ c, (ordersPOST true true (some items) shippingGiven catalog
          insertOk).orderCreated = some c →
        c.status = "pending" ∧
        List.Forall₂ (fun (i : ReqItem) (it : OrderItem) =>
          ∃ p, catalog i.product_id = some p ∧
            i.quantity ≤ p.stock_remaining ∧
            it.unit_price = unitPrice p ∧ it.quantity = i.quantity ∧
            it.total_price = unitPrice p * i.quantity) items c.items ∧
        c.subtotal = (c.items.map fun it => it.total_price).sum ∧
        c.shipping_cost = (if 999 ≤ c.subtotal then 0 else 99) ∧
        c.total = c.subtotal + c.shipping_cost) ∧
    ((∃ i ∈ items, catalog i.product_id = none ∨
        ∃ p, catalog i.product_id = some p ∧
          p.stock_remaining < i.quantity) →
      (ordersPOST true true (some items) shippingGiven catalog
          insertOk).status = 400 ∧
      (ordersPOST true true (some items) shippingGiven catalog
          insertOk).orderCreated = none) := by
  constructor
  · intro c hc
    rw [ordersPOST_true_eq] at hc
    by_cases hemp : items.isEmpty
    · rw [if_pos hemp] at hc
      simp at hc
    · rw [if_neg hemp] at hc
      by_cases hship : shippingGiven = true
      · rw [if_neg (by simp [hship])] at hc
        cases hb : buildItems catalog items with
        | error e =>
          rw [hb] at hc
          obtain ⟨st, msg⟩ := e
          simp at hc
        | ok pr =>
          obtain ⟨os, subtotal⟩ := pr
          rw [hb] at hc
          dsimp only at hc
          by_cases hins : insertOk = true
          · rw [if_neg (by simp [hins])] at hc
            simp only [Option.some.injEq] at hc
            subst hc
            obtain ⟨hsum, hfa⟩ := buildItems_ok_spec catalog items os
              subtotal hb
            exact ⟨rfl, hfa, hsum, rfl, rfl⟩
          · rw [if_pos (by simp [hins])] at hc
            simp at hc
      · rw [if_pos (by simp [hship])] at hc
        simp at hc
  · rintro ⟨i, hi, hbad⟩
    have hne : items.isEmpty = false := by
      cases items with
      | nil => simp at hi
      | cons a l => rfl
    rw [ordersPOST_true_eq, if_neg (by simp [hne])]
    by_cases hship : shippingGiven = true
    · rw [if_neg (by simp [hship])]
      obtain ⟨msg, hmsg⟩ :=
        buildItems_error_of_bad catalog items ⟨i, hi, hbad⟩
      rw [hmsg]
      exact ⟨rfl, rfl⟩
    · rw [if_pos (by simp [hship])]
      exact ⟨rfl, rfl⟩

/-- C10 witness: a request for five units of a product with three in stock
is rejected with 400 and no order. -/
theorem C10_amended_order_amounts_witness :
    (ordersPOST true true (some [⟨"p2", none, 5⟩]) true
        (fun _ => some ⟨"p2", "Mug", 250, none, 3, none⟩) true).status =
      400 ∧
    (ordersPOST true true (some [⟨"p2", none, 5⟩]) true
        (fun _ => some ⟨"p2", "Mug", 250, none, 3, none⟩)
        true).orderCreated = none :=
  (C10_amended_order_amounts [⟨"p2", none, 5⟩] true
      (fun _ => some ⟨"p2", "Mug", 250, none, 3, none⟩) true).2
    ⟨⟨"p2", none, 5⟩, List.mem_cons_self _ _,
     Or.inr ⟨⟨"p2", "Mug", 250, none, 3, none⟩, rfl, by decide⟩⟩

end Shiprocket
